import Mathlib

/-!
Verification development for the UPI/KYC fraud-detection backend.

The definitions below are a shallow embedding of the Python sources:
  * `backend/risk_engine.py`  — risk scoring engine,
  * `backend/gemini_service.py` — AI collaborator boundary,
  * `backend/database.py` and `backend/routes/reports.py` — persistence
    and the report submission / lookup workflow.

Modelling conventions: Python strings are Lean `String` (lists of
characters); case-insensitive matching uses ASCII `Char.toLower`, which
agrees with CPython `str.lower` on the ASCII inputs that occur in the
claims; Python floats are modelled as exact rationals `ℚ` (the scoring
thresholds compare against decimal literals, and every comparison in the
source is a plain order comparison); Python ints are `Nat` where the
source guarantees non-negativity (report counts, sub-scores).
-/

namespace FraudDetection

/-- The whitespace set of CPython `str.strip` (ASCII part). -/
def pyIsSpace (c : Char) : Bool :=
  c == ' ' || c == '\t' || c == '\n' || c == '\x0d' || c == '\x0b' || c == '\x0c'

/-- `str.strip()`: drop leading and trailing whitespace. -/
def pyStrip (s : String) : String :=
  ⟨((s.data.dropWhile pyIsSpace).reverse.dropWhile pyIsSpace).reverse⟩

/-- `str.lower()` (ASCII case folding). -/
def pyLower (s : String) : String :=
  ⟨s.data.map Char.toLower⟩

/-- Python `needle in hay` substring containment on character lists. -/
def listContainsSub (needle hay : List Char) : Bool :=
  hay.tails.any (fun t => needle.isPrefixOf t)

/-- Python `needle in hay` substring containment on strings. -/
def containsSub (needle hay : String) : Bool :=
  listContainsSub needle.data hay.data

/-- `str.replace(" ", "")` — remove every ASCII space. -/
def removeSpaces (s : String) : String :=
  ⟨s.data.filter (fun c => !(c == ' '))⟩

/-- `SCAM_KEYWORDS` from `risk_engine.py`, in source order. -/
def SCAM_KEYWORDS : List String := [
  "otp", "kyc", "aadhar", "aadhaar", "pan card", "lottery", "prize",
  "winner", "congratulations", "urgent", "verify", "suspend",
  "blocked", "link", "click here", "rupees", "lakhs", "crore",
  "transfer", "upi", "paytm", "phonepe", "gpay", "google pay",
  "loan approved", "credit card", "insurance", "refund", "cashback",
  "job offer", "work from home", "earn money", "investment",
  "trading", "bitcoin", "crypto", "forex", "stock tips",
  "customs", "courier", "parcel", "fedex", "police", "cbi",
  "narcotics", "arrest", "warrant", "legal action",
  "whatsapp", "telegram", "bank", "rbi", "sbi", "hdfc", "icici",
  "account", "password", "pin", "cvv", "expire",
  "free", "offer", "limited time", "act now", "immediately",
  "sextortion", "video", "compromise", "blackmail"]

/-- `SCAM_PHONE_PREFIXES` from `risk_engine.py`, in source order. -/
def SCAM_PHONE_PREFIXES : List String := ["+91 140", "140"]

/-- The keywords of the scam-keyword list found in a description
(the loop body of `_keyword_score`): case-insensitive substring match,
collected in list order. -/
def foundKeywords (description : String) : List String :=
  SCAM_KEYWORDS.filter (fun keyword => containsSub keyword (pyLower description))

/-- `_keyword_score` from `risk_engine.py`. -/
def keyword_score (description : String) : Nat × List String :=
  let found := foundKeywords description
  if found = [] then (0, [])
  else (min (found.length * 5) 30,
    [("Contains scam keywords: ") ++ String.intercalate (", ") (found.take 5) ++
      (if found.length > 5 then ("...") else (""))])

/-- `_check_phone` from `risk_engine.py`: the loop over
`SCAM_PHONE_PREFIXES` stops at the first prefix whose lower-cased,
space-stripped form is a prefix of the value; independently +10 for an
international (non-+91) number. -/
def check_phone (value : String) : List Nat × List String :=
  let hit := SCAM_PHONE_PREFIXES.find?
    (fun p => (removeSpaces (pyLower p)).data.isPrefixOf value.data)
  let base : List Nat × List String :=
    match hit with
    | some p => ([15], [("Phone number starts with known spam prefix: ") ++ p])
    | none => ([], [])
  let intl : List Nat × List String :=
    if ("+").data.isPrefixOf value.data && !(("+91").data.isPrefixOf value.data) then
      ([10], [("International number (non-Indian)")])
    else ([], [])
  (base.1 ++ intl.1, base.2 ++ intl.2)

/-- The local-parts of `SUSPICIOUS_UPI_PATTERNS` from `risk_engine.py`:
each source pattern is the regex `.*W.*@.*` for the word `W` listed here,
in source order. -/
def SUSPICIOUS_UPI_WORDS : List String :=
  ["paytm", "rbi", "sbi", "refund", "lucky", "winner", "support", "helpdesk"]

/-- `re.match(".*W.*@.*", v)` for a literal word `W`: some occurrence of
`W` in `v` is followed (strictly later) by an `@`. -/
def matchWordThenAt (w : String) (v : String) : Bool :=
  v.data.tails.any (fun t => w.data.isPrefixOf t && (t.drop w.length).contains ('@'))

/-- `re.match("^[a-z0-9]{10,}@", v)`: `v` starts with a maximal run of
lower-case ASCII letters and digits of length ≥ 10 followed by `@`. -/
def matchRandomLocal (v : String) : Bool :=
  let run := v.data.takeWhile (fun c => c.isLower || c.isDigit)
  decide (10 ≤ run.length) && ((v.data.drop run.length).head? == some ('@'))

/-- `_check_upi` from `risk_engine.py`. -/
def check_upi (value : String) : List Nat × List String :=
  let base : List Nat × List String :=
    match SUSPICIOUS_UPI_WORDS.find? (fun w => matchWordThenAt w value) with
    | some _ => ([15], [("UPI ID matches suspicious pattern")])
    | none => ([], [])
  let rand : List Nat × List String :=
    if matchRandomLocal value then ([5], [("UPI ID appears randomly generated")])
    else ([], [])
  (base.1 ++ rand.1, base.2 ++ rand.2)

/-- The suspicious TLD list of `_check_website`, in source order. -/
def SUSPICIOUS_TLDS : List String :=
  [".xyz", ".top", ".buzz", ".club", ".icu", ".tk", ".ml", ".ga"]

/-- The URL-shortener list of `_check_website`, in source order. -/
def URL_SHORTENERS : List String :=
  ["bit.ly", "tinyurl", "t.co", "goo.gl", "is.gd", "rebrand.ly"]

/-- `_check_website` from `risk_engine.py`. -/
def check_website (value : String) : List Nat × List String :=
  let value := if ("http").data.isPrefixOf value.data then value else ("http://") ++ value
  let tld : List Nat × List String :=
    match SUSPICIOUS_TLDS.find? (fun t => containsSub t value) with
    | some t => ([15], [("Uses suspicious domain extension: ") ++ t])
    | none => ([], [])
  let short : List Nat × List String :=
    match URL_SHORTENERS.find? (fun s => containsSub s value) with
    | some _ => ([10], [("Uses URL shortener (often used for phishing)")])
    | none => ([], [])
  (tld.1 ++ short.1, tld.2 ++ short.2)

/-- The entity words of the first regex of `_check_email`
(`re.search("(bank|sbi|hdfc|icici|rbi|govt|gov)", v)`). -/
def OFFICIAL_WORDS : List String := ["bank", "sbi", "hdfc", "icici", "rbi", "govt", "gov"]

/-- The domains of the second regex of `_check_email`
(`re.search("@(gmail|yahoo|hotmail|outlook)", v)`). -/
def FREE_MAIL_WORDS : List String := ["@gmail", "@yahoo", "@hotmail", "@outlook"]

/-- `_check_email` from `risk_engine.py`. -/
def check_email (value : String) : List Nat × List String :=
  if (OFFICIAL_WORDS.any (fun w => containsSub w value)) &&
     (FREE_MAIL_WORDS.any (fun w => containsSub w value)) then
    ([20], [("Email impersonates official entity using free email service")])
  else ([], [])

/-- `_identifier_pattern_score` from `risk_engine.py`: normalize the
value (`strip` + `lower`), dispatch on the identifier type, sum the
bonuses, clamp at 25. -/
def identifier_pattern_score (identifier_type identifier_value : String) :
    Nat × List String :=
  let value := pyLower (pyStrip identifier_value)
  let sf : List Nat × List String :=
    if identifier_type = "phone" then check_phone value
    else if identifier_type = "upi" then check_upi value
    else if identifier_type = "website" then check_website value
    else if identifier_type = "email" then check_email value
    else ([], [])
  (min sf.1.sum 25, sf.2)

/-- `_report_frequency_score` from `risk_engine.py`. -/
def report_frequency_score (report_count : Nat) : Nat × List String :=
  if report_count = 0 then (0, [])
  else if report_count = 1 then (5, [("Previously reported once")])
  else if report_count ≤ 3 then
    (15, [("Reported ") ++ toString report_count ++ (" times before")])
  else if report_count ≤ 10 then
    (20, [("Frequently reported (") ++ toString report_count ++ (" times)")])
  else
    (25, [("Heavily reported (") ++ toString report_count ++ (" times) — likely confirmed scam")])

/-- Rendering of Python `f"{x:.0%}"`, abstracted: the confidence as a
whole percentage (CPython formats through binary floats; the exact
rounding of ties is not load-bearing for any claim). -/
def pctText (q : ℚ) : String := toString (round (q * 100)) ++ ("%")

/-- `_ai_confidence_score` from `risk_engine.py`. -/
def ai_confidence_score (ai_confidence : Option ℚ) : Nat × List String :=
  match ai_confidence with
  | none => (0, [])
  | some c =>
    if 0.9 ≤ c then (20, [("AI highly confident this is a scam (") ++ pctText c ++ (")")])
    else if 0.7 ≤ c then (15, [("AI moderately confident this is a scam (") ++ pctText c ++ (")")])
    else if 0.5 ≤ c then (10, [("AI suspects this may be a scam (") ++ pctText c ++ (")")])
    else if 0.3 ≤ c then (5, [("AI sees some suspicious signals (") ++ pctText c ++ (")")])
    else (0, [("AI considers this low risk (") ++ pctText c ++ (")")])

/-- `_determine_level` from `risk_engine.py`. -/
def determine_level (score : Nat) : String :=
  if score ≥ 75 then ("CRITICAL")
  else if score ≥ 50 then ("HIGH")
  else if score ≥ 25 then ("MEDIUM")
  else ("LOW")

/-- The sentinel factor of `calculate_risk_score`. -/
def NO_FACTORS : String := "No significant risk factors detected"

/-- The result shape of `calculate_risk_score` (and of a lookup's
recomputed risk): score, level, ordered factor list. -/
structure RiskAssessment where
  score : Nat
  level : String
  factors : List String
deriving Repr, DecidableEq

/-- `calculate_risk_score` from `risk_engine.py`: sum the four
sub-scores, clamp to [0, 100], classify, concatenate factors in the
fixed order, substitute the sentinel when empty. -/
def calculate_risk_score (identifier_type identifier_value description : String)
    (report_count : Nat) (ai_confidence : Option ℚ) : RiskAssessment :=
  let kw := keyword_score description
  let idp := identifier_pattern_score identifier_type identifier_value
  let freq := report_frequency_score report_count
  let ai := ai_confidence_score ai_confidence
  let total := min (max (kw.1 + idp.1 + freq.1 + ai.1) 0) 100
  let all_factors := kw.2 ++ idp.2 ++ freq.2 ++ ai.2
  ⟨total, determine_level total,
    if all_factors = [] then [NO_FACTORS] else all_factors⟩

/-! ### Embedding of `backend/gemini_service.py` -/

/-- The result dict of `analyze_scam_report` / `_parse_response`
(spec type `AIAnalysisResult`); `error = none` models Python `None`. -/
structure AIAnalysisResult where
  is_scam : Bool
  confidence : ℚ
  scam_type : String
  explanation : String
  advice : String
  error : Option String
deriving Repr, DecidableEq

/-- The fields `_parse_response` extracts from a successfully
`json.loads`-parsed response, after its `.get(..., default)` defaults
and coercions (`bool`, `float`, `str`) have been applied. -/
structure ParsedFields where
  is_scam : Bool
  confidence : ℚ
  scam_type : String
  explanation : String
  advice : String
deriving Repr, DecidableEq

/-- The external world seen by `analyze_scam_report`: whether the
`google.generativeai` import succeeded, the `GEMINI_API_KEY` value
(`""` when unset), the outcome of the network call
(`Except.error e` models a raised exception with message `e`), and the
behaviour of `json.loads`-plus-field-coercion on response text
(`Except.error e` models `JSONDecodeError`/`ValueError`/`KeyError`). -/
structure GeminiEnv where
  genai_available : Bool
  api_key : String
  call_result : Except String String
  json_loads : String → Except String ParsedFields

/-- The code-fence stripping of `_parse_response`:
`re.sub("^```(?:json)?\\s*", "", t)` then `re.sub("\\s*```$", "", t)`,
applied after `t.strip()`. -/
def stripFences (s : String) : String :=
  let l := s.data
  let l :=
    if ("```json").data.isPrefixOf l then (l.drop 7).dropWhile pyIsSpace
    else if ("```").data.isPrefixOf l then (l.drop 3).dropWhile pyIsSpace
    else l
  let r := l.reverse
  let r :=
    if ("```").data.reverse.isPrefixOf r then (r.drop 3).dropWhile pyIsSpace
    else r
  ⟨r.reverse⟩

/-- `_parse_response` from `gemini_service.py`. -/
def parse_response (loads : String → Except String ParsedFields)
    (text : String) : AIAnalysisResult :=
  let text := stripFences (pyStrip text)
  match loads text with
  | Except.ok r =>
    ⟨r.is_scam, r.confidence, r.scam_type, r.explanation, r.advice, none⟩
  | Except.error e =>
    ⟨false, 0, ("unknown"), ⟨text.data.take 500⟩,
      ("Could not parse AI response. Please try again."),
      some (("Parse error: ") ++ e)⟩

/-- `analyze_scam_report` from `gemini_service.py`, as a function of the
external environment (the prompt assembly does not affect any returned
field and is omitted). -/
def analyze_scam_report (env : GeminiEnv) : AIAnalysisResult :=
  if !env.genai_available then
    ⟨false, 0, ("unknown"),
      ("AI analysis unavailable — google-generativeai package not installed."),
      ("Install the package: pip install google-generativeai"),
      some ("google-generativeai not installed")⟩
  else if env.api_key = ("") then
    ⟨false, 0, ("unknown"),
      ("AI analysis unavailable — no API key configured."),
      ("Set the GEMINI_API_KEY environment variable to enable AI analysis."),
      some ("No GEMINI_API_KEY set")⟩
  else
    match env.call_result with
    | Except.error e =>
      ⟨false, 0, ("unknown"), ("AI analysis failed: ") ++ e,
        ("The AI service is temporarily unavailable. Risk score is based on pattern matching only."),
        some e⟩
    | Except.ok text => parse_response env.json_loads text

/-- The failure modes enumerated for the AI collaborator boundary:
missing package, missing API key, a raised service/network exception, or
an unparseable response body. -/
def aiFailureMode (env : GeminiEnv) : Prop :=
  env.genai_available = false ∨ env.api_key = ("") ∨
  (∃ e, env.call_result = Except.error e) ∨
  (∃ text e, env.call_result = Except.ok text ∧
    env.json_loads (stripFences (pyStrip text)) = Except.error e)

/-! ### Embedding of `backend/database.py` and `backend/routes/reports.py` -/

/-- Identifier normalization: `identifier_value.strip().lower()`, the
only form `database.py` ever stores or compares. -/
def normalizeIdent (v : String) : String := pyLower (pyStrip v)

/-- A row of the `fraud_reports` table. `reported_at` is the opaque
timestamp string; `risk_factors` and `ai_analysis` keep their structured
values (the source stores their `json.dumps` serializations, which the
core never reads back). -/
structure StoredReport where
  id : Nat
  identifier_type : String
  identifier_value : String
  description : String
  category : String
  risk_score : Nat
  risk_level : String
  risk_factors : List String
  ai_analysis : AIAnalysisResult
  reporter_name : String
  reported_at : String
deriving Repr, DecidableEq

/-- The SQLite store: rows in insertion order plus the autoincrement
counter. -/
structure DB where
  rows : List StoredReport
  next_id : Nat
deriving Repr

/-- `insert_report` from `database.py`: stores the normalized
(`strip` + `lower`) identifier value and returns the new row id. -/
def insert_report (db : DB) (identifier_type identifier_value description
    category : String) (risk_score : Nat) (risk_level : String)
    (risk_factors : List String) (ai_analysis : AIAnalysisResult)
    (reporter_name now : String) : Nat × DB :=
  let row : StoredReport :=
    ⟨db.next_id, identifier_type, normalizeIdent identifier_value, description,
      category, risk_score, risk_level, risk_factors, ai_analysis,
      reporter_name, now⟩
  (db.next_id, ⟨db.rows ++ [row], db.next_id + 1⟩)

/-- `get_reports_by_identifier` from `database.py`: all rows whose
stored value equals the normalized query (the `ORDER BY reported_at
DESC` presentation order is irrelevant to count and membership and is
not modelled). -/
def get_reports_by_identifier (db : DB) (identifier_value : String) :
    List StoredReport :=
  db.rows.filter (fun r => r.identifier_value == normalizeIdent identifier_value)

/-- `get_report_count_for_identifier` from `database.py`. -/
def get_report_count_for_identifier (db : DB) (identifier_value : String) : Nat :=
  (db.rows.filter (fun r => r.identifier_value == normalizeIdent identifier_value)).length

/-- The request body of the submit-report route. -/
structure ReportCreate where
  identifier_type : String
  identifier_value : String
  description : String
  reporter_name : String
deriving Repr, DecidableEq

/-- The derivation of the scorer's AI-confidence input in
`submit_report` (`routes/reports.py` line 31):
`ai_result.get("confidence") if ai_result.get("is_scam") else None`. -/
def derive_ai_confidence (ai_result : AIAnalysisResult) : Option ℚ :=
  if ai_result.is_scam then some ai_result.confidence else none

/-- The category derivation of `submit_report`: the AI `scam_type`,
except that `"unknown"` is upgraded to `"suspected_scam"` when the AI
flagged a scam. -/
def derive_category (ai_result : AIAnalysisResult) : String :=
  let category := ai_result.scam_type
  if category = ("unknown") && ai_result.is_scam then ("suspected_scam")
  else category

/-- `submit_report` from `routes/reports.py`, with the AI collaborator's
result and the timestamp passed as inputs: count prior reports, derive
the AI confidence, score, derive the category, persist, and return the
new id, the risk assessment and the updated store. -/
def submit_report (db : DB) (report : ReportCreate)
    (ai_result : AIAnalysisResult) (now : String) :
    Nat × RiskAssessment × DB :=
  let report_count := get_report_count_for_identifier db report.identifier_value
  let ai_confidence := derive_ai_confidence ai_result
  let risk := calculate_risk_score report.identifier_type
    report.identifier_value report.description report_count ai_confidence
  let category := derive_category ai_result
  let inserted := insert_report db report.identifier_type
    report.identifier_value report.description category risk.score risk.level
    risk.factors ai_result report.reporter_name now
  (inserted.1, risk, inserted.2)

/-- The count returned by the lookup route
(`lookup_identifier` in `routes/reports.py`): the length of
`get_reports_by_identifier`. -/
def lookup_report_count (db : DB) (identifier : String) : Nat :=
  (get_reports_by_identifier db identifier).length

/-! ### Helper lemmas -/

/-- The scam-keyword list has no duplicate entries, so counting matching
entries counts distinct matching terms. -/
theorem scam_keywords_nodup : SCAM_KEYWORDS.Nodup := by decide

/-- The threshold characterization of `_determine_level`. -/
theorem determine_level_thresholds (s : Nat) :
    (75 ≤ s → determine_level s = ("CRITICAL")) ∧
    (50 ≤ s → s < 75 → determine_level s = ("HIGH")) ∧
    (25 ≤ s → s < 50 → determine_level s = ("MEDIUM")) ∧
    (s < 25 → determine_level s = ("LOW")) := by
  unfold determine_level
  refine ⟨?_, ?_, ?_, ?_⟩ <;> intros <;> split_ifs <;> first | rfl | omega

/-- A list containing two different elements has length at least two. -/
theorem two_le_length_of_mem_ne {l : List String} {a b : String}
    (ha : a ∈ l) (hb : b ∈ l) (hne : a ≠ b) : 2 ≤ l.length := by
  match l with
  | [] => cases ha
  | [x] =>
    simp only [List.mem_singleton] at ha hb
    exact absurd (ha.trans hb.symm) hne
  | x :: y :: t => simp only [List.length_cons]; omega

/-- The tails-based substring test agrees with list infix. -/
theorem listContainsSub_iff (n h : List Char) :
    listContainsSub n h = true ↔ n <:+: h := by
  unfold listContainsSub
  rw [List.any_eq_true]
  constructor
  · rintro ⟨t, ht, hp⟩
    exact List.infix_iff_prefix_suffix.mpr
      ⟨t, List.isPrefixOf_iff_prefix.mp hp, (List.mem_tails _ _).mp ht⟩
  · intro hinf
    obtain ⟨t, hpre, hsuf⟩ := List.infix_iff_prefix_suffix.mp hinf
    exact ⟨t, (List.mem_tails _ _).mpr hsuf, List.isPrefixOf_iff_prefix.mpr hpre⟩

/-- The sum of the four sub-scores fed into `calculate_risk_score`,
in source order. -/
def sub_scores_total (identifier_type identifier_value description : String)
    (report_count : Nat) (ai_confidence : Option ℚ) : Nat :=
  (keyword_score description).1 +
  (identifier_pattern_score identifier_type identifier_value).1 +
  (report_frequency_score report_count).1 +
  (ai_confidence_score ai_confidence).1

/-- The concatenation of the four sub-component factor lists, in source
order. -/
def concat_factors (identifier_type identifier_value description : String)
    (report_count : Nat) (ai_confidence : Option ℚ) : List String :=
  (keyword_score description).2 ++
  (identifier_pattern_score identifier_type identifier_value).2 ++
  (report_frequency_score report_count).2 ++
  (ai_confidence_score ai_confidence).2

/-! ### The claims -/

/-- Claim C1: for every identifier type, identifier value, description,
report count and optional AI confidence, `calculate_risk_score` returns
the sum of the four sub-scores clamped to [0, 100]; the level is derived
from that total by highest-first thresholds (≥75 CRITICAL, ≥50 HIGH,
≥25 MEDIUM, else LOW, exact at 24/25, 49/50 and 74/75); the factor list
is the concatenation of the sub-component factor lists in the fixed
order keyword, identifier, frequency, AI, replaced by the single
sentinel factor when empty. -/
theorem C1_calculate_risk_score_aggregation
    (identifier_type identifier_value description : String)
    (report_count : Nat) (ai_confidence : Option ℚ) :
    (calculate_risk_score identifier_type identifier_value description
      report_count ai_confidence).score =
      min (max (sub_scores_total identifier_type identifier_value description
        report_count ai_confidence) 0) 100 ∧
    (calculate_risk_score identifier_type identifier_value description
      report_count ai_confidence).level =
      determine_level ((calculate_risk_score identifier_type identifier_value
        description report_count ai_confidence).score) ∧
    (75 ≤ (calculate_risk_score identifier_type identifier_value description
        report_count ai_confidence).score →
      (calculate_risk_score identifier_type identifier_value description
        report_count ai_confidence).level = ("CRITICAL")) ∧
    (50 ≤ (calculate_risk_score identifier_type identifier_value description
        report_count ai_confidence).score →
      (calculate_risk_score identifier_type identifier_value description
        report_count ai_confidence).score < 75 →
      (calculate_risk_score identifier_type identifier_value description
        report_count ai_confidence).level = ("HIGH")) ∧
    (25 ≤ (calculate_risk_score identifier_type identifier_value description
        report_count ai_confidence).score →
      (calculate_risk_score identifier_type identifier_value description
        report_count ai_confidence).score < 50 →
      (calculate_risk_score identifier_type identifier_value description
        report_count ai_confidence).level = ("MEDIUM")) ∧
    ((calculate_risk_score identifier_type identifier_value description
        report_count ai_confidence).score < 25 →
      (calculate_risk_score identifier_type identifier_value description
        report_count ai_confidence).level = ("LOW")) ∧
    (calculate_risk_score identifier_type identifier_value description
      report_count ai_confidence).factors =
      (if concat_factors identifier_type identifier_value description
          report_count ai_confidence = [] then [NO_FACTORS]
       else concat_factors identifier_type identifier_value description
          report_count ai_confidence) ∧
    (determine_level 24 = ("LOW") ∧ determine_level 25 = ("MEDIUM") ∧
     determine_level 49 = ("MEDIUM") ∧ determine_level 50 = ("HIGH") ∧
     determine_level 74 = ("HIGH") ∧ determine_level 75 = ("CRITICAL")) := by
  have hlev : (calculate_risk_score identifier_type identifier_value description
      report_count ai_confidence).level =
      determine_level ((calculate_risk_score identifier_type identifier_value
        description report_count ai_confidence).score) := rfl
  refine ⟨rfl, hlev, ?_, ?_, ?_, ?_, rfl, by decide⟩
  · intro h
    rw [hlev]
    exact (determine_level_thresholds _).1 h
  · intro h1 h2
    rw [hlev]
    exact (determine_level_thresholds _).2.1 h1 h2
  · intro h1 h2
    rw [hlev]
    exact (determine_level_thresholds _).2.2.1 h1 h2
  · intro h
    rw [hlev]
    exact (determine_level_thresholds _).2.2.2 h

/-- Witness for C1 at a concrete input: the empty-signal report scores
below 25 and is classified LOW by the theorem's LOW-bucket implication. -/
theorem C1_witness :
    (calculate_risk_score ("other") ("x") ("") 0 none).score < 25 ∧
    (calculate_risk_score ("other") ("x") ("") 0 none).level = ("LOW") := by
  have h := C1_calculate_risk_score_aggregation ("other") ("x") ("") 0 none
  exact ⟨by decide, h.2.2.2.2.2.1 (by decide)⟩

/-- Claim C2: for every description, the keyword sub-score is
min(k × 5, 30) where k is the number of (distinct — the keyword list has
no duplicates and the matched list inherits that) scam-keyword entries
occurring case-insensitively in the description; no factor is emitted
when k = 0, and exactly one factor is emitted when k > 0, listing the
first five matched terms with an ellipsis exactly when more than five
matched. -/
theorem C2_keyword_score_spec (description : String) :
    (keyword_score description).1 =
      min ((foundKeywords description).length * 5) 30 ∧
    (foundKeywords description).Nodup ∧
    (foundKeywords description = [] → keyword_score description = (0, [])) ∧
    (foundKeywords description ≠ [] →
      (keyword_score description).2 =
        [("Contains scam keywords: ") ++
          String.intercalate (", ") ((foundKeywords description).take 5) ++
          (if (foundKeywords description).length > 5 then ("...") else (""))]) := by
  refine ⟨?_, List.Nodup.filter _ scam_keywords_nodup, ?_, ?_⟩
  · simp only [keyword_score]
    split
    · next h => rw [h]; simp
    · rfl
  · intro h
    simp only [keyword_score]
    rw [if_pos h]
  · intro h
    simp only [keyword_score]
    rw [if_neg h]

/-- Witness for C2 at the description "otp": one keyword matches and the
single factor names it. -/
theorem C2_witness :
    foundKeywords ("otp") ≠ [] ∧
    (keyword_score ("otp")).2 = [("Contains scam keywords: otp")] := by
  have h := C2_keyword_score_spec ("otp")
  refine ⟨by decide, ?_⟩
  rw [h.2.2.2 (by decide)]
  decide

/-- Claim C3: the frequency scorer maps a prior report count to exactly
one inclusive bucket — 0 ↦ 0 with no factor, 1 ↦ 5, 2–3 ↦ 15,
4–10 ↦ 20, >10 ↦ 25, each non-zero bucket with a factor — and in
particular 0, 1, 2, 3, 4, 10, 11 map to 0, 5, 15, 15, 20, 20, 25. -/
theorem C3_report_frequency_buckets (n : Nat) :
    (n = 0 → report_frequency_score n = (0, [])) ∧
    (n = 1 → report_frequency_score n = (5, [("Previously reported once")])) ∧
    (2 ≤ n → n ≤ 3 → (report_frequency_score n).1 = 15 ∧
      (report_frequency_score n).2 ≠ []) ∧
    (4 ≤ n → n ≤ 10 → (report_frequency_score n).1 = 20 ∧
      (report_frequency_score n).2 ≠ []) ∧
    (10 < n → (report_frequency_score n).1 = 25 ∧
      (report_frequency_score n).2 ≠ []) ∧
    ((report_frequency_score 0).1 = 0 ∧ (report_frequency_score 1).1 = 5 ∧
     (report_frequency_score 2).1 = 15 ∧ (report_frequency_score 3).1 = 15 ∧
     (report_frequency_score 4).1 = 20 ∧ (report_frequency_score 10).1 = 20 ∧
     (report_frequency_score 11).1 = 25) := by
  refine ⟨?_, ?_, ?_, ?_, ?_, by decide⟩
  · rintro rfl; rfl
  · rintro rfl; rfl
  · intro h1 h2
    unfold report_frequency_score
    rw [if_neg (by omega), if_neg (by omega), if_pos (by omega)]
    exact ⟨rfl, by simp⟩
  · intro h1 h2
    unfold report_frequency_score
    rw [if_neg (by omega), if_neg (by omega), if_neg (by omega), if_pos (by omega)]
    exact ⟨rfl, by simp⟩
  · intro h
    unfold report_frequency_score
    rw [if_neg (by omega), if_neg (by omega), if_neg (by omega), if_neg (by omega)]
    exact ⟨rfl, by simp⟩

/-- Witness for C3 at count 2: the 2–3 bucket yields sub-score 15. -/
theorem C3_witness : (report_frequency_score 2).1 = 15 :=
  ((C3_report_frequency_buckets 2).2.2.1 (by decide) (by decide)).1

/-- Claim C4: an absent confidence yields sub-score 0 with no factor; a
present confidence is bucketed with exact thresholds 0.90 ↦ 20,
0.70 ↦ 15, 0.50 ↦ 10, 0.30 ↦ 5, below 0.30 ↦ 0, and exactly one factor
is emitted in every present-confidence case, including the
below-0.30 case. -/
theorem C4_ai_confidence_buckets :
    ai_confidence_score none = (0, []) ∧
    ∀ q : ℚ,
      (0.9 ≤ q → (ai_confidence_score (some q)).1 = 20) ∧
      (0.7 ≤ q → q < 0.9 → (ai_confidence_score (some q)).1 = 15) ∧
      (0.5 ≤ q → q < 0.7 → (ai_confidence_score (some q)).1 = 10) ∧
      (0.3 ≤ q → q < 0.5 → (ai_confidence_score (some q)).1 = 5) ∧
      (q < 0.3 → (ai_confidence_score (some q)).1 = 0) ∧
      (ai_confidence_score (some q)).2.length = 1 := by
  refine ⟨rfl, fun q => ⟨?_, ?_, ?_, ?_, ?_, ?_⟩⟩ <;>
  · intros
    simp only [ai_confidence_score]
    split_ifs <;> first | rfl | linarith

/-- Witness for C4 at the exact thresholds 0.9, 0.7, 0.3 and at a value
just below 0.3. -/
theorem C4_witness :
    ai_confidence_score none = (0, []) ∧
    (ai_confidence_score (some 0.9)).1 = 20 ∧
    (ai_confidence_score (some 0.7)).1 = 15 ∧
    (ai_confidence_score (some 0.3)).1 = 5 ∧
    (ai_confidence_score (some 0.29)).1 = 0 := by
  have h := C4_ai_confidence_buckets
  exact ⟨h.1, (h.2 0.9).1 (by norm_num),
    (h.2 0.7).2.1 (by norm_num) (by norm_num),
    (h.2 0.3).2.2.2.1 (by norm_num) (by norm_num),
    (h.2 0.29).2.2.2.2.1 (by norm_num)⟩

/-- Claim C5: in the submission workflow, the AI-confidence input to the
scoring engine is the AI result's confidence exactly when `is_scam` is
true; when `is_scam` is false the input is absent, whatever the returned
confidence. -/
theorem C5_ai_confidence_derivation (db : DB) (report : ReportCreate)
    (ai_result : AIAnalysisResult) (now : String) :
    (ai_result.is_scam = true →
      (submit_report db report ai_result now).2.1 =
        calculate_risk_score report.identifier_type report.identifier_value
          report.description
          (get_report_count_for_identifier db report.identifier_value)
          (some ai_result.confidence)) ∧
    (ai_result.is_scam = false →
      (submit_report db report ai_result now).2.1 =
        calculate_risk_score report.identifier_type report.identifier_value
          report.description
          (get_report_count_for_identifier db report.identifier_value)
          none) := by
  constructor <;> intro h <;>
    simp [submit_report, derive_ai_confidence, h]

/-- Witness for C5: an AI result with `is_scam = false` and confidence
0.95 yields an absent AI-confidence input to the scorer. -/
theorem C5_witness :
    (submit_report ⟨[], 1⟩ ⟨("phone"), ("x"), ("d"), ("A")⟩
        ⟨false, 0.95, ("unknown"), (""), (""), none⟩ ("t")).2.1 =
      calculate_risk_score ("phone") ("x") ("d")
        (get_report_count_for_identifier ⟨[], 1⟩ ("x")) none :=
  (C5_ai_confidence_derivation ⟨[], 1⟩ ⟨("phone"), ("x"), ("d"), ("A")⟩
    ⟨false, 0.95, ("unknown"), (""), (""), none⟩ ("t")).2 rfl

/-- Claim C8: in every enumerated failure mode of the AI collaborator
(missing package, missing API key, a raised service exception, or an
unparseable response), `analyze_scam_report` returns the fallback
result with `is_scam = false`, confidence 0 and a non-null error field,
instead of propagating a fault (the embedding is a total function). -/
theorem C8_ai_fallback (env : GeminiEnv) (h : aiFailureMode env) :
    (analyze_scam_report env).is_scam = false ∧
    (analyze_scam_report env).confidence = 0 ∧
    (analyze_scam_report env).error ≠ none := by
  rcases h with h | h | ⟨e, h⟩ | ⟨text, e, hok, herr⟩
  · simp [analyze_scam_report, h]
  · by_cases hg : env.genai_available <;>
      simp [analyze_scam_report, hg, h]
  · by_cases hg : env.genai_available
    · by_cases hk : env.api_key = ("") <;>
        simp [analyze_scam_report, hg, hk, h]
    · simp [analyze_scam_report, hg]
  · by_cases hg : env.genai_available
    · by_cases hk : env.api_key = ("")
      · simp [analyze_scam_report, hg, hk]
      · simp [analyze_scam_report, parse_response, hg, hk, hok, herr]
    · simp [analyze_scam_report, hg]

/-- Witness for C8: a concrete environment with the package missing
(and every other stage also failing) produces the fallback shape. -/
theorem C8_witness :
    (analyze_scam_report ⟨false, (""), Except.error ("boom"),
      fun _ => Except.error ("bad")⟩).is_scam = false ∧
    (analyze_scam_report ⟨false, (""), Except.error ("boom"),
      fun _ => Except.error ("bad")⟩).confidence = 0 ∧
    (analyze_scam_report ⟨false, (""), Except.error ("boom"),
      fun _ => Except.error ("bad")⟩).error ≠ none :=
  C8_ai_fallback ⟨false, (""), Except.error ("boom"),
    fun _ => Except.error ("bad")⟩ (Or.inl rfl)

/-- Claim C9: after a submission is persisted, looking up the same
identifier in any variant with the same normalized (trimmed,
lower-cased) form returns a count ≥ 1 and includes the submitted
report, because only the normalized form is stored and compared. -/
theorem C9_roundtrip (db : DB) (report : ReportCreate)
    (ai_result : AIAnalysisResult) (now variant : String)
    (h : normalizeIdent variant = normalizeIdent report.identifier_value) :
    1 ≤ lookup_report_count ((submit_report db report ai_result now).2.2) variant ∧
    ∃ row ∈ get_reports_by_identifier
        ((submit_report db report ai_result now).2.2) variant,
      row.id = db.next_id ∧ row.description = report.description ∧
      row.identifier_value = normalizeIdent report.identifier_value := by
  obtain ⟨row, hrows, hid, hdesc, hval⟩ :
      ∃ row, (submit_report db report ai_result now).2.2.rows =
        db.rows ++ [row] ∧ row.id = db.next_id ∧
        row.description = report.description ∧
        row.identifier_value = normalizeIdent report.identifier_value :=
    ⟨_, rfl, rfl, rfl, rfl⟩
  have hpred : (row.identifier_value == normalizeIdent variant) = true := by
    rw [hval, h]
    exact beq_self_eq_true _
  have hmem : row ∈ get_reports_by_identifier
      ((submit_report db report ai_result now).2.2) variant := by
    unfold get_reports_by_identifier
    rw [hrows]
    exact List.mem_filter.mpr
      ⟨List.mem_append_right _ (List.mem_singleton_self _), hpred⟩
  exact ⟨List.length_pos_of_mem hmem, row, hmem, hid, hdesc, hval⟩

/-- Witness for C9: submitting for "  UPI-Fraud@OkSBI  " and looking up
"upi-fraud@oksbi" finds the stored report. -/
theorem C9_witness :
    normalizeIdent ("upi-fraud@oksbi") =
      normalizeIdent ("  UPI-Fraud@OkSBI  ") ∧
    1 ≤ lookup_report_count
      ((submit_report ⟨[], 1⟩ ⟨("upi"), ("  UPI-Fraud@OkSBI  "), ("d"), ("A")⟩
        ⟨false, 0, ("unknown"), (""), (""), none⟩ ("t")).2.2)
      ("upi-fraud@oksbi") := by
  refine ⟨by decide, ?_⟩
  exact (C9_roundtrip ⟨[], 1⟩ ⟨("upi"), ("  UPI-Fraud@OkSBI  "), ("d"), ("A")⟩
    ⟨false, 0, ("unknown"), (""), (""), none⟩ ("t") ("upi-fraud@oksbi")
    (by decide)).1

/-- The scenario description of claim C6. -/
def urgentDesc : String :=
  "URGENT! Your account will be blocked, verify KYC now or pay via UPI"

/-- Claim C6 counterexample: on the scenario description the keyword
sub-score is 30, not 25 — the description also contains the keyword
"account", so six entries match, not five. -/
theorem C6_counterexample :
    (keyword_score urgentDesc).1 = 30 ∧ (keyword_score urgentDesc).1 ≠ 25 := by
  constructor <;> decide

/-- Claim C6 as amended: the scenario description matches exactly the
six keywords kyc, urgent, verify, blocked, upi, account (in list order),
so the keyword sub-score is min(6 × 5, 30) = 30 and the single factor
lists the first five with an ellipsis. -/
theorem C6_keyword_scenario :
    foundKeywords urgentDesc =
      [("kyc"), ("urgent"), ("verify"), ("blocked"), ("upi"), ("account")] ∧
    keyword_score urgentDesc =
      (30, [("Contains scam keywords: kyc, urgent, verify, blocked, upi...")]) := by
  constructor <;> decide

/-- Claim C7 counterexample: for identifier type "phone" with value
"+91 140 1234567" the identifier sub-score is 0 with no factor — the
code removes spaces from the *prefix*, not from the value, so the spaced
value never starts with "+91140" (nor with "140"). -/
theorem C7_counterexample :
    identifier_pattern_score ("phone") ("+91 140 1234567") = (0, []) ∧
    ¬ 15 ≤ (identifier_pattern_score ("phone") ("+91 140 1234567")).1 := by
  constructor <;> decide

/-- Claim C7 as amended: the phone prefix check compares the trimmed,
lower-cased value with its spaces retained against each prefix with the
prefix's spaces removed, in list order, stopping at the first match; so
"+91 140 1234567" earns no bonus while the space-free "+911401234567"
earns the +15 bonus naming the matched prefix. -/
theorem C7_phone_prefix_check :
    (∀ value : String, ((check_phone value).1.contains 15) =
      SCAM_PHONE_PREFIXES.any
        (fun p => (removeSpaces (pyLower p)).data.isPrefixOf value.data)) ∧
    identifier_pattern_score ("phone") ("+91 140 1234567") = (0, []) ∧
    identifier_pattern_score ("phone") ("+911401234567") =
      (15, [("Phone number starts with known spam prefix: +91 140")]) := by
  refine ⟨?_, by decide, by decide⟩
  intro value
  unfold check_phone
  rcases hf : SCAM_PHONE_PREFIXES.find?
      (fun p => (removeSpaces (pyLower p)).data.isPrefixOf value.data) with _ | p
  · have hall := List.find?_eq_none.mp hf
    have hany : SCAM_PHONE_PREFIXES.any
        (fun p => (removeSpaces (pyLower p)).data.isPrefixOf value.data) = false := by
      rw [List.any_eq_false]
      intro p hp
      simpa using hall p hp
    rw [hany]
    split_ifs <;> simp
  · have hp := List.find?_some hf
    have hmem := List.mem_of_find?_eq_some hf
    have hany : SCAM_PHONE_PREFIXES.any
        (fun p => (removeSpaces (pyLower p)).data.isPrefixOf value.data) = true :=
      List.any_eq_true.mpr ⟨p, hmem, hp⟩
    rw [hany]
    split_ifs <;> simp

/-- Claim C10 counterexample: a description consisting of the single
word "aadhaar" contains the keyword "aadhaar" but matches only that one
entry — "aadhar" is not a substring of "aadhaar" — so it contributes 1
to k (5 points), not 2 (10 points), and only one spelling appears in the
factor. -/
theorem C10_counterexample :
    containsSub ("aadhaar") (pyLower ("aadhaar")) = true ∧
    foundKeywords ("aadhaar") = [("aadhaar")] ∧
    (keyword_score ("aadhaar")).1 = 5 ∧
    (keyword_score ("aadhaar")).1 ≠ 10 := by
  refine ⟨by decide, by decide, by decide, by decide⟩

/-- Claim C10 as amended: k counts matching entries of the keyword list,
not distinct description words, and entries can overlap as substrings:
any description containing "job offer" matches both the "job offer" and
the "offer" entries, so that one phrase alone contributes 2 to k; on the
single-phrase description "job offer" the sub-score is 10 and both
entries appear in the factor string. ("aadhar" is not a substring of
"aadhaar", so the pair of spellings never co-matches on one word.) -/
theorem C10_overlapping_keywords :
    (∀ d : String, containsSub ("job offer") (pyLower d) = true →
      ("job offer") ∈ foundKeywords d ∧ ("offer") ∈ foundKeywords d ∧
      2 ≤ (foundKeywords d).length) ∧
    foundKeywords ("job offer") = [("job offer"), ("offer")] ∧
    keyword_score ("job offer") =
      (10, [("Contains scam keywords: job offer, offer")]) ∧
    containsSub ("aadhar") ("aadhaar") = false := by
  refine ⟨?_, by decide, by decide, by decide⟩
  intro d hd
  have hjob : ("job offer") ∈ foundKeywords d :=
    List.mem_filter.mpr ⟨by decide, hd⟩
  have hoffer : ("offer") ∈ foundKeywords d := by
    refine List.mem_filter.mpr ⟨by decide, ?_⟩
    have hinf : ("job offer" : String).data.IsInfix (pyLower d).data := by
      have := (listContainsSub_iff _ _).mp hd
      exact this
    have hsub : ("offer" : String).data.IsInfix ("job offer" : String).data := by
      decide
    exact (listContainsSub_iff _ _).mpr (hsub.trans hinf)
  exact ⟨hjob, hoffer, two_le_length_of_mem_ne hjob hoffer (by decide)⟩

/-- Witness for the amended C10 at the description "job offer". -/
theorem C10_witness :
    ("offer") ∈ foundKeywords ("job offer") ∧
    2 ≤ (foundKeywords ("job offer")).length := by
  have h := C10_overlapping_keywords.1 ("job offer") (by decide)
  exact ⟨h.2.1, h.2.2⟩

end FraudDetection
